import Mathlib

/-!
Shallow embedding of the last-fm-py client (src/api/client.py, src/api/exceptions.py,
src/api/models/artist.py, src/api/models/album.py) and proofs about its
specification claims.

JSON wire values are embedded as the inductive `Wire`; each pydantic model class
becomes a Lean structure with a `validate : Wire → Except String _` function that
mirrors pydantic v2 validation of that class: before-validators are applied to the
raw wire value of a field when the key is present, then the field type is checked
(lax coercion where pydantic would coerce), required fields without defaults error
when the key is missing, fields with a `= None` default become `none`.
-/

/-- A decoded JSON value as Python's `json` module would hand it to pydantic.
Floats and booleans do not occur in the payload fragments this client consumes,
so they are omitted. -/
inductive Wire where
  | str : String → Wire
  | int : Int → Wire
  | obj : List (String × Wire) → Wire
  | arr : List Wire → Wire
  | null : Wire

/-- Key lookup in a decoded JSON object (Python dict: keys are unique). -/
def lookupW (fields : List (String × Wire)) (k : String) : Option Wire :=
  (fields.find? (fun p => p.1 = k)).map (fun p => p.2)

/-- Python truthiness of a decoded JSON value: empty string, zero, empty
containers and `None` are falsy. -/
def pyTruthy : Wire → Bool
  | .str s => s ≠ ""
  | .int n => n ≠ 0
  | .obj fs => !fs.isEmpty
  | .arr xs => !xs.isEmpty
  | .null => false

/-- The body `v or None` shared by the validators `empty_mbid_to_none` and
`empty_size_to_none` in artist.py and album.py: a falsy value becomes `None`. -/
def pyOrNone (v : Wire) : Wire :=
  if pyTruthy v then v else Wire.null

/-- Decimal digit run to a number; `none` when empty or a non-digit occurs. -/
def parseDigits (cs : List Char) : Option Nat :=
  if cs.isEmpty then none
  else cs.foldl
    (fun acc? c => acc?.bind (fun acc =>
      if c.isDigit then some (acc * 10 + (c.toNat - 48)) else none))
    (some 0)

/-- Python `int(s)` on a plain decimal numeral with an optional sign;
`none` when the string is not such a numeral (Python raises ValueError). -/
def parseIntStr (s : String) : Option Int :=
  match s.data with
  | '-' :: rest => (parseDigits rest).map (fun n => -(n : Int))
  | '+' :: rest => (parseDigits rest).map (fun n => (n : Int))
  | cs => (parseDigits cs).map (fun n => (n : Int))

/-- Python `int(v)` as used by the before-validators `parse_listeners`,
`parse_ints`, `parse_streamable`, `parse_fulltrack`. -/
def pyInt : Wire → Except String Int
  | .int n => .ok n
  | .str s =>
    match parseIntStr s with
    | some n => .ok n
    | none => .error "invalid literal for int() with base 10"
  | _ => .error "int() argument must be a string or a number"

/-- Pydantic lax coercion to `int` for fields typed `int` with no explicit
validator (track duration, rank, userplaycount). -/
def laxInt : Wire → Except String Int
  | .int n => .ok n
  | .str s =>
    match parseIntStr s with
    | some n => .ok n
    | none => .error "value is not a valid integer"
  | _ => .error "value is not a valid integer"

/-- Pydantic lax coercion to `bool` (only the `ontour` field relies on it). -/
def laxBool : Wire → Except String Bool
  | .int 0 => .ok false
  | .int 1 => .ok true
  | .str "0" => .ok false
  | .str "1" => .ok true
  | .str "false" => .ok false
  | .str "true" => .ok true
  | _ => .error "value is not a valid boolean"

/-- Pydantic validation of a `str` field: only a string is accepted. -/
def validateStr : Wire → Except String String
  | .str s => .ok s
  | _ => .error "value is not a valid string"

/-- Pydantic validation of a `str | None` field. -/
def validateOptStr : Wire → Except String (Option String)
  | .null => .ok none
  | .str s => .ok (some s)
  | _ => .error "value is not a valid string"

/-- Pydantic validation of an `int | None` field (lax). -/
def validateOptInt : Wire → Except String (Option Int)
  | .null => .ok none
  | v => (laxInt v).map some

/-- A required field: pydantic errors when the key is absent. -/
def reqField (fs : List (String × Wire)) (k : String) : Except String Wire :=
  match lookupW fs k with
  | some v => .ok v
  | none => .error (k ++ ": Field required")

/-- Validation of a `list[T]` field: the wire value must be a JSON list and
every element must validate as `T`. -/
def validateList (f : Wire → Except String α) : Wire → Except String (List α)
  | .arr xs => xs.mapM f
  | _ => .error "value is not a valid list"

/-- Validation of a nullable nested model field `T | None`. -/
def optNested (f : Wire → Except String α) : Wire → Except String (Option α)
  | .null => .ok none
  | v => (f v).map some

/-- Whether an `Except` result is `ok`, as a `Bool`. -/
def isOkE : Except ε α → Bool
  | .ok _ => true
  | .error _ => false

/-- The image size enumeration `Literal["small", "medium", "large",
"extralarge", "mega"]`. -/
inductive ImgSize where
  | small | medium | large | extralarge | mega
deriving DecidableEq

/-- Validation of the `size` field after `empty_size_to_none` ran. -/
def validateSize : Wire → Except String (Option ImgSize)
  | .null => .ok none
  | .str "small" => .ok (some .small)
  | .str "medium" => .ok (some .medium)
  | .str "large" => .ok (some .large)
  | .str "extralarge" => .ok (some .extralarge)
  | .str "mega" => .ok (some .mega)
  | _ => .error "size: not a permitted literal"

/-! ## src/api/models/artist.py -/

/-- Represents an image associated with an artist (class ArtistImage). -/
structure ArtistImage where
  url : String
  size : Option ImgSize
deriving DecidableEq

/-- Validator `ArtistImage.empty_size_to_none`: `return v or None`. -/
def ArtistImage.empty_size_to_none (v : Wire) : Wire := pyOrNone v

/-- Pydantic validation of an `ArtistImage` fragment; `url` carries the alias
`#text` and the class sets `populate_by_name`, so either key populates it. -/
def ArtistImage.validate : Wire → Except String ArtistImage
  | .obj fs => do
    let urlW ← match lookupW fs "#text" with
      | some v => Except.ok v
      | none => reqField fs "url"
    let url ← validateStr urlW
    let sizeW ← reqField fs "size"
    let size ← validateSize (ArtistImage.empty_size_to_none sizeW)
    Except.ok { url := url, size := size }
  | _ => .error "ArtistImage: value is not a valid dictionary"

/-- Basic information about an artist (class Artist). -/
structure Artist where
  name : String
  listeners : Int
  mbid : Option String
  url : String
  streamable : Bool
  image : List ArtistImage
deriving DecidableEq

/-- Validator `Artist.parse_listeners`: `return int(v)`. -/
def Artist.parse_listeners (v : Wire) : Except String Int := pyInt v

/-- Validator `Artist.empty_mbid_to_none`: `return v or None`. -/
def Artist.empty_mbid_to_none (v : Wire) : Wire := pyOrNone v

/-- Validator `Artist.parse_streamable`: `return bool(int(v))`. -/
def Artist.parse_streamable (v : Wire) : Except String Bool :=
  (pyInt v).map (fun n => n != 0)

/-- Pydantic validation of an `Artist` fragment. -/
def Artist.validate : Wire → Except String Artist
  | .obj fs => do
    let name ← validateStr (← reqField fs "name")
    let listeners ← Artist.parse_listeners (← reqField fs "listeners")
    let mbid ← validateOptStr (Artist.empty_mbid_to_none (← reqField fs "mbid"))
    let url ← validateStr (← reqField fs "url")
    let streamable ← Artist.parse_streamable (← reqField fs "streamable")
    let image ← validateList ArtistImage.validate (← reqField fs "image")
    Except.ok { name := name, listeners := listeners, mbid := mbid,
                url := url, streamable := streamable, image := image }
  | _ => .error "Artist: value is not a valid dictionary"

/-- Statistical information about an artist (class ArtistStats). -/
structure ArtistStats where
  listeners : Int
  playcount : Int
deriving DecidableEq

/-- Validator `ArtistStats.parse_ints`: `return int(v)`. -/
def ArtistStats.parse_ints (v : Wire) : Except String Int := pyInt v

/-- Pydantic validation of an `ArtistStats` fragment. -/
def ArtistStats.validate : Wire → Except String ArtistStats
  | .obj fs => do
    let listeners ← ArtistStats.parse_ints (← reqField fs "listeners")
    let playcount ← ArtistStats.parse_ints (← reqField fs "playcount")
    Except.ok { listeners := listeners, playcount := playcount }
  | _ => .error "ArtistStats: value is not a valid dictionary"

/-- A similar artist (class SimilarArtist). -/
structure SimilarArtist where
  name : String
  url : String
  image : List ArtistImage
deriving DecidableEq

/-- Pydantic validation of a `SimilarArtist` fragment. -/
def SimilarArtist.validate : Wire → Except String SimilarArtist
  | .obj fs => do
    let name ← validateStr (← reqField fs "name")
    let url ← validateStr (← reqField fs "url")
    let image ← validateList ArtistImage.validate (← reqField fs "image")
    Except.ok { name := name, url := url, image := image }
  | _ => .error "SimilarArtist: value is not a valid dictionary"

/-- Container for a list of similar artists (class SimilarArtists);
the `artist` field is `list[SimilarArtist]` with no singleton normalizer. -/
structure SimilarArtists where
  artist : List SimilarArtist
deriving DecidableEq

/-- Pydantic validation of a `SimilarArtists` fragment. -/
def SimilarArtists.validate : Wire → Except String SimilarArtists
  | .obj fs => do
    let artist ← validateList SimilarArtist.validate (← reqField fs "artist")
    Except.ok { artist := artist }
  | _ => .error "SimilarArtists: value is not a valid dictionary"

/-- A tag associated with an artist (class ArtistTag). -/
structure ArtistTag where
  name : String
  url : String
deriving DecidableEq

/-- Pydantic validation of an `ArtistTag` fragment. -/
def ArtistTag.validate : Wire → Except String ArtistTag
  | .obj fs => do
    let name ← validateStr (← reqField fs "name")
    let url ← validateStr (← reqField fs "url")
    Except.ok { name := name, url := url }
  | _ => .error "ArtistTag: value is not a valid dictionary"

/-- Container for artist tags (class ArtistTags); the `tag` field is
`list[ArtistTag]` with no singleton normalizer. -/
structure ArtistTags where
  tag : List ArtistTag
deriving DecidableEq

/-- Pydantic validation of an `ArtistTags` fragment. -/
def ArtistTags.validate : Wire → Except String ArtistTags
  | .obj fs => do
    let tag ← validateList ArtistTag.validate (← reqField fs "tag")
    Except.ok { tag := tag }
  | _ => .error "ArtistTags: value is not a valid dictionary"

/-- Link information within the artist's biography (class ArtistBioLink);
`text` aliases `#text` and `link` aliases `href`, without `populate_by_name`. -/
structure ArtistBioLink where
  text : String
  rel : String
  link : String
deriving DecidableEq

/-- Pydantic validation of an `ArtistBioLink` fragment. -/
def ArtistBioLink.validate : Wire → Except String ArtistBioLink
  | .obj fs => do
    let text ← validateStr (← reqField fs "#text")
    let rel ← validateStr (← reqField fs "rel")
    let link ← validateStr (← reqField fs "href")
    Except.ok { text := text, rel := rel, link := link }
  | _ => .error "ArtistBioLink: value is not a valid dictionary"

/-- Container for biography links (class ArtistBioLinks): one single link. -/
structure ArtistBioLinks where
  link : ArtistBioLink
deriving DecidableEq

/-- Pydantic validation of an `ArtistBioLinks` fragment. -/
def ArtistBioLinks.validate : Wire → Except String ArtistBioLinks
  | .obj fs => do
    let link ← ArtistBioLink.validate (← reqField fs "link")
    Except.ok { link := link }
  | _ => .error "ArtistBioLinks: value is not a valid dictionary"

/-- Biography details for an artist (class ArtistBio). -/
structure ArtistBio where
  links : ArtistBioLinks
  published : String
  summary : String
  content : String
deriving DecidableEq

/-- Pydantic validation of an `ArtistBio` fragment. -/
def ArtistBio.validate : Wire → Except String ArtistBio
  | .obj fs => do
    let links ← ArtistBioLinks.validate (← reqField fs "links")
    let published ← validateStr (← reqField fs "published")
    let summary ← validateStr (← reqField fs "summary")
    let content ← validateStr (← reqField fs "content")
    Except.ok { links := links, published := published,
                summary := summary, content := content }
  | _ => .error "ArtistBio: value is not a valid dictionary"

/-- Detailed information about an artist (class ArtistDetail). -/
structure ArtistDetail where
  name : String
  mbid : Option String
  url : String
  image : List ArtistImage
  streamable : Bool
  ontour : Bool
  stats : ArtistStats
  similar : SimilarArtists
  tags : ArtistTags
  bio : ArtistBio
deriving DecidableEq

/-- Validator `ArtistDetail.empty_mbid_to_none`: `return v or None`. -/
def ArtistDetail.empty_mbid_to_none (v : Wire) : Wire := pyOrNone v

/-- Validator `ArtistDetail.parse_streamable`: `return bool(int(v))`. -/
def ArtistDetail.parse_streamable (v : Wire) : Except String Bool :=
  (pyInt v).map (fun n => n != 0)

/-- Pydantic validation of an `ArtistDetail` fragment; `ontour` has no
explicit validator, so it undergoes pydantic's lax bool coercion. -/
def ArtistDetail.validate : Wire → Except String ArtistDetail
  | .obj fs => do
    let name ← validateStr (← reqField fs "name")
    let mbid ← validateOptStr (ArtistDetail.empty_mbid_to_none (← reqField fs "mbid"))
    let url ← validateStr (← reqField fs "url")
    let image ← validateList ArtistImage.validate (← reqField fs "image")
    let streamable ← ArtistDetail.parse_streamable (← reqField fs "streamable")
    let ontour ← laxBool (← reqField fs "ontour")
    let stats ← ArtistStats.validate (← reqField fs "stats")
    let similar ← SimilarArtists.validate (← reqField fs "similar")
    let tags ← ArtistTags.validate (← reqField fs "tags")
    let bio ← ArtistBio.validate (← reqField fs "bio")
    Except.ok { name := name, mbid := mbid, url := url, image := image,
                streamable := streamable, ontour := ontour, stats := stats,
                similar := similar, tags := tags, bio := bio }
  | _ => .error "ArtistDetail: value is not a valid dictionary"

/-- Container for artist search matches (class ArtistMatches); the `artist`
field is `list[Artist]` with no singleton normalizer. -/
structure ArtistMatches where
  artist : List Artist
deriving DecidableEq

/-- Pydantic validation of an `ArtistMatches` fragment. -/
def ArtistMatches.validate : Wire → Except String ArtistMatches
  | .obj fs => do
    let artist ← validateList Artist.validate (← reqField fs "artist")
    Except.ok { artist := artist }
  | _ => .error "ArtistMatches: value is not a valid dictionary"

/-! ## src/api/models/album.py -/

/-- Represents an image associated with an album (class AlbumImage). -/
structure AlbumImage where
  url : String
  size : Option ImgSize
deriving DecidableEq

/-- Validator `AlbumImage.empty_size_to_none`: `return v or None`. -/
def AlbumImage.empty_size_to_none (v : Wire) : Wire := pyOrNone v

/-- Pydantic validation of an `AlbumImage` fragment; `url` carries the alias
`#text` and the class sets `populate_by_name`. -/
def AlbumImage.validate : Wire → Except String AlbumImage
  | .obj fs => do
    let urlW ← match lookupW fs "#text" with
      | some v => Except.ok v
      | none => reqField fs "url"
    let url ← validateStr urlW
    let sizeW ← reqField fs "size"
    let size ← validateSize (AlbumImage.empty_size_to_none sizeW)
    Except.ok { url := url, size := size }
  | _ => .error "AlbumImage: value is not a valid dictionary"

/-- An album search result (class Album). -/
structure Album where
  name : String
  artist : String
  url : String
  image : List AlbumImage
  streamable : Bool
  mbid : Option String
deriving DecidableEq

/-- Validator `Album.parse_streamable`: `return bool(int(v))`. -/
def Album.parse_streamable (v : Wire) : Except String Bool :=
  (pyInt v).map (fun n => n != 0)

/-- Validator `Album.empty_mbid_to_none`: `return v or None`. -/
def Album.empty_mbid_to_none (v : Wire) : Wire := pyOrNone v

/-- Pydantic validation of an `Album` fragment. -/
def Album.validate : Wire → Except String Album
  | .obj fs => do
    let name ← validateStr (← reqField fs "name")
    let artist ← validateStr (← reqField fs "artist")
    let url ← validateStr (← reqField fs "url")
    let image ← validateList AlbumImage.validate (← reqField fs "image")
    let streamable ← Album.parse_streamable (← reqField fs "streamable")
    let mbid ← validateOptStr (Album.empty_mbid_to_none (← reqField fs "mbid"))
    Except.ok { name := name, artist := artist, url := url,
                image := image, streamable := streamable, mbid := mbid }
  | _ => .error "Album: value is not a valid dictionary"

/-- A tag on an album (class AlbumTag in album.py). -/
structure AlbumTag where
  url : String
  name : String
deriving DecidableEq

/-- Pydantic validation of an `AlbumTag` fragment. -/
def AlbumTag.validate : Wire → Except String AlbumTag
  | .obj fs => do
    let url ← validateStr (← reqField fs "url")
    let name ← validateStr (← reqField fs "name")
    Except.ok { url := url, name := name }
  | _ => .error "AlbumTag: value is not a valid dictionary"

/-- Container for album tags (class AlbumTags in album.py); the `tag` field is
`list[AlbumTag]` with no singleton normalizer. -/
structure AlbumTags where
  tag : List AlbumTag
deriving DecidableEq

/-- Pydantic validation of an `AlbumTags` fragment. -/
def AlbumTags.validate : Wire → Except String AlbumTags
  | .obj fs => do
    let tag ← validateList AlbumTag.validate (← reqField fs "tag")
    Except.ok { tag := tag }
  | _ => .error "AlbumTags: value is not a valid dictionary"

/-- Streamability marker on an album track (class AlbumTrackStreamable);
`text` aliases `#text` without `populate_by_name`. -/
structure AlbumTrackStreamable where
  fulltrack : Bool
  text : String
deriving DecidableEq

/-- Validator `AlbumTrackStreamable.parse_fulltrack`: `return bool(int(v))`. -/
def AlbumTrackStreamable.parse_fulltrack (v : Wire) : Except String Bool :=
  (pyInt v).map (fun n => n != 0)

/-- Pydantic validation of an `AlbumTrackStreamable` fragment. -/
def AlbumTrackStreamable.validate : Wire → Except String AlbumTrackStreamable
  | .obj fs => do
    let fulltrack ← AlbumTrackStreamable.parse_fulltrack (← reqField fs "fulltrack")
    let text ← validateStr (← reqField fs "#text")
    Except.ok { fulltrack := fulltrack, text := text }
  | _ => .error "AlbumTrackStreamable: value is not a valid dictionary"

/-- Position of a track (class AlbumTrackIndex); `index` aliases `rank`. -/
structure AlbumTrackIndex where
  index : Int
deriving DecidableEq

/-- Pydantic validation of an `AlbumTrackIndex` fragment. -/
def AlbumTrackIndex.validate : Wire → Except String AlbumTrackIndex
  | .obj fs => do
    let index ← laxInt (← reqField fs "rank")
    Except.ok { index := index }
  | _ => .error "AlbumTrackIndex: value is not a valid dictionary"

/-- The artist of an album track (class AlbumTrackArtist). -/
structure AlbumTrackArtist where
  name : String
  url : String
  mbid : Option String
deriving DecidableEq

/-- Validator `AlbumTrackArtist.empty_mbid_to_none`: `return v or None`. -/
def AlbumTrackArtist.empty_mbid_to_none (v : Wire) : Wire := pyOrNone v

/-- Pydantic validation of an `AlbumTrackArtist` fragment. -/
def AlbumTrackArtist.validate : Wire → Except String AlbumTrackArtist
  | .obj fs => do
    let name ← validateStr (← reqField fs "name")
    let url ← validateStr (← reqField fs "url")
    let mbid ← validateOptStr
      (AlbumTrackArtist.empty_mbid_to_none (← reqField fs "mbid"))
    Except.ok { name := name, url := url, mbid := mbid }
  | _ => .error "AlbumTrackArtist: value is not a valid dictionary"

/-- Wiki section of an album (class AlbumTrackWiki); `summary` and `content`
are `str | None` without defaults: nullable but required. -/
structure AlbumTrackWiki where
  published : String
  summary : Option String
  content : Option String
deriving DecidableEq

/-- Pydantic validation of an `AlbumTrackWiki` fragment. -/
def AlbumTrackWiki.validate : Wire → Except String AlbumTrackWiki
  | .obj fs => do
    let published ← validateStr (← reqField fs "published")
    let summary ← validateOptStr (← reqField fs "summary")
    let content ← validateOptStr (← reqField fs "content")
    Except.ok { published := published, summary := summary, content := content }
  | _ => .error "AlbumTrackWiki: value is not a valid dictionary"

/-- A track on an album (class AlbumTrack); `index` aliases `@attr`,
`duration` is `int | None` with no validator (lax, nullable, required). -/
structure AlbumTrack where
  streamable : AlbumTrackStreamable
  duration : Option Int
  url : String
  name : String
  index : AlbumTrackIndex
  artist : AlbumTrackArtist
deriving DecidableEq

/-- Pydantic validation of an `AlbumTrack` fragment. -/
def AlbumTrack.validate : Wire → Except String AlbumTrack
  | .obj fs => do
    let streamable ← AlbumTrackStreamable.validate (← reqField fs "streamable")
    let duration ← validateOptInt (← reqField fs "duration")
    let url ← validateStr (← reqField fs "url")
    let name ← validateStr (← reqField fs "name")
    let index ← AlbumTrackIndex.validate (← reqField fs "@attr")
    let artist ← AlbumTrackArtist.validate (← reqField fs "artist")
    Except.ok { streamable := streamable, duration := duration, url := url,
                name := name, index := index, artist := artist }
  | _ => .error "AlbumTrack: value is not a valid dictionary"

/-- Ordered track list of an album (class AlbumTracks). -/
structure AlbumTracks where
  track : List AlbumTrack
deriving DecidableEq

/-- Validator `AlbumTracks.normalize_track`:
`return v if isinstance(v, list) else [v]`. -/
def AlbumTracks.normalize_track (v : Wire) : Wire :=
  match v with
  | .arr _ => v
  | _ => .arr [v]

/-- Pydantic validation of an `AlbumTracks` fragment: the before-validator
`normalize_track` wraps a lone object into a one-element list. -/
def AlbumTracks.validate : Wire → Except String AlbumTracks
  | .obj fs => do
    let track ← validateList AlbumTrack.validate
      (AlbumTracks.normalize_track (← reqField fs "track"))
    Except.ok { track := track }
  | _ => .error "AlbumTracks: value is not a valid dictionary"

/-- Details of an album (class AlbumDetail). Fields `userplaycount` and `wiki`
have a `= None` default; `tags` is `AlbumTags | None` with NO default, hence
nullable but required; `mbid` is `str | None` and, unlike the four sibling
models, AlbumDetail declares no `empty_mbid_to_none` validator. -/
structure AlbumDetail where
  artist : String
  mbid : Option String
  listeners : Int
  playcount : Int
  userplaycount : Option Int
  tags : Option AlbumTags
  image : List AlbumImage
  tracks : AlbumTracks
  wiki : Option AlbumTrackWiki
deriving DecidableEq

/-- Validator `AlbumDetail.parse_ints` (on listeners, playcount): `int(v)`. -/
def AlbumDetail.parse_ints (v : Wire) : Except String Int := pyInt v

/-- Pydantic validation of an `AlbumDetail` fragment. -/
def AlbumDetail.validate : Wire → Except String AlbumDetail
  | .obj fs => do
    let artist ← validateStr (← reqField fs "artist")
    let mbid ← validateOptStr (← reqField fs "mbid")
    let listeners ← AlbumDetail.parse_ints (← reqField fs "listeners")
    let playcount ← AlbumDetail.parse_ints (← reqField fs "playcount")
    let userplaycount ← match lookupW fs "userplaycount" with
      | none => Except.ok none
      | some v => validateOptInt v
    let tags ← optNested AlbumTags.validate (← reqField fs "tags")
    let image ← validateList AlbumImage.validate (← reqField fs "image")
    let tracks ← AlbumTracks.validate (← reqField fs "tracks")
    let wiki ← match lookupW fs "wiki" with
      | none => Except.ok none
      | some v => optNested AlbumTrackWiki.validate v
    Except.ok { artist := artist, mbid := mbid, listeners := listeners,
                playcount := playcount, userplaycount := userplaycount,
                tags := tags, image := image, tracks := tracks, wiki := wiki }
  | _ => .error "AlbumDetail: value is not a valid dictionary"

/-- Container for album search matches (class AlbumMatches); the `album`
field is `list[Album]` with no singleton normalizer. -/
structure AlbumMatches where
  album : List Album
deriving DecidableEq

/-- Pydantic validation of an `AlbumMatches` fragment. -/
def AlbumMatches.validate : Wire → Except String AlbumMatches
  | .obj fs => do
    let album ← validateList Album.validate (← reqField fs "album")
    Except.ok { album := album }
  | _ => .error "AlbumMatches: value is not a valid dictionary"

/-! ## src/api/exceptions.py and src/api/client.py -/

/-- A scalar query-parameter value as passed by the public operations
(strings, and the ints used for limit, page and autocorrect). -/
inductive PVal where
  | str : String → PVal
  | int : Int → PVal
deriving DecidableEq

/-- Lookup in an association-list dictionary with `PVal`-typed values. -/
def findVal (d : List (String × α)) (k : String) : Option α :=
  (d.find? (fun p => p.1 = k)).map (fun p => p.2)

/-- The dict comprehension `{k: v for k, v in params.items() if v is not None}`
of client.py line 88: entries whose value is `None` are dropped. -/
def filteredParams (params : List (String × Option PVal)) : List (String × PVal) :=
  params.filterMap (fun p => p.2.map (fun v => (p.1, v)))

/-- Binding one key in a Python dict: replace the value in place when the key
exists, append otherwise. -/
def dictInsert (d : List (String × PVal)) (k : String) (v : PVal) :
    List (String × PVal) :=
  if d.any (fun p => p.1 = k) then
    d.map (fun p => if p.1 = k then (k, v) else p)
  else d ++ [(k, v)]

/-- The merged parameter dict of client.py lines 87-91:
`{**filtered, "api_key": self.api_key, "format": "json"}`. -/
def assembleParams (params : List (String × Option PVal)) (apiKey : String) :
    List (String × PVal) :=
  dictInsert (dictInsert (filteredParams params) "api_key" (.str apiKey))
    "format" (.str "json")

/-- The typed exception of exceptions.py (class LastFMException). -/
structure LastFMException where
  error : Int
  message : String
deriving DecidableEq

/-- Shape `LastFMErrorResponse` of exceptions.py: `error: int, message: str`;
validating a decoded object against it (pydantic lax on the int). -/
def LastFMErrorResponse.model_validate (fs : List (String × Wire)) :
    Except String LastFMException := do
  let e ← laxInt (← reqField fs "error")
  let m ← validateStr (← reqField fs "message")
  Except.ok { error := e, message := m }

/-- The distinct failures `_request` can raise: the RuntimeError of line 85,
the LastFMException of line 105, or a pydantic ValidationError. -/
inductive ReqError where
  | runtimeNotInitialized
  | lastFM : LastFMException → ReqError
  | validationError : String → ReqError
deriving DecidableEq

/-- Lines 103-107 of client.py: if the decoded object contains an `error` key
it is validated as `LastFMErrorResponse` and raised as `LastFMException`;
otherwise the object is returned verbatim. -/
def handleErrorKey (data : Wire) : Except ReqError Wire :=
  match data with
  | .obj fs =>
    match lookupW fs "error" with
    | some _ =>
      match LastFMErrorResponse.model_validate fs with
      | .ok err => .error (.lastFM err)
      | .error s => .error (.validationError s)
    | none => .ok data
  | d => .ok d

/-- The underlying HTTP session object held by the client: `cached` is true
for a `CachedSession` (aiohttp_client_cache), false for a plain
`aiohttp.ClientSession`; `closed` tracks whether `close()` ran on it. -/
structure SessionHandle where
  id : Nat
  cached : Bool
  closed : Bool
deriving DecidableEq

/-- The mutable attributes of a `LastFMApi` instance set in `__init__`
(client.py lines 43-60). The cache backend and headers are kept abstract as
the values chosen at construction. -/
structure ClientState where
  api_key : String
  cache_ttl : Int
  usingCustomSession : Bool
  session : Option SessionHandle
deriving DecidableEq

/-- `LastFMApi.__init__`: stores the key and TTL, records whether the session
was externally supplied (`_using_custom_session = session is not None`) and
stores the supplied session or `None`. -/
def LastFMApi.init (apiKey : String) (cacheTtl : Int)
    (session : Option SessionHandle) : ClientState :=
  { api_key := apiKey, cache_ttl := cacheTtl,
    usingCustomSession := session.isSome, session := session }

/-- `LastFMApi.start` (client.py lines 109-116):
`self._session = self._session or CachedSession(...)`. The fresh-session
supply `n` models object creation: a new `CachedSession` takes identity `n`
and the supply advances, so an unchanged supply means no session was built. -/
def LastFMApi.start (st : ClientState) (n : Nat) : ClientState × Nat :=
  match st.session with
  | some _ => (st, n)
  | none =>
    ({ st with session := some { id := n, cached := true, closed := false } }, n + 1)

/-- `LastFMApi.close` (client.py lines 118-124): closes the held session only
when one exists and it was not externally supplied; the `_session` attribute
itself is never cleared. -/
def LastFMApi.close (st : ClientState) : ClientState :=
  match st.session with
  | some s =>
    if st.usingCustomSession then st
    else { st with session := some { s with closed := true } }
  | none => st

/-- Modelled from the spec: the pluggable cache store of §6, an external
collaborator keyed deterministically by the full outgoing request. -/
abbrev Store := List (List (String × PVal) × Wire)

/-- Modelled from the spec: the transport as a deterministic map from the
outgoing parameter set to the decoded JSON body (§6). -/
abbrev Transport := List (String × PVal) → Wire

/-- Modelled from the spec: a GET through the cache store (§4.2): hit returns
the stored body untouched, miss fetches and stores the result. -/
def cachedGet (store : Store) (tr : Transport) (ps : List (String × PVal)) :
    Wire × Store :=
  match store.find? (fun e => e.1 = ps) with
  | some e => (e.2, store)
  | none => (tr ps, store ++ [(ps, tr ps)])

/-- Modelled from the spec: a GET that does not consult or write the cache —
both a plain session's GET and a `CachedSession` GET under `disabled()`. -/
def plainGet (store : Store) (tr : Transport) (ps : List (String × PVal)) :
    Wire × Store :=
  (tr ps, store)

/-- `LastFMApi._request` (client.py lines 69-107) as a state transition: the
not-initialized guard, parameter assembly, the cache-bypass branch
(`not use_cache and isinstance(self._session, CachedSession)`), the dispatch
through the session, and error-key discrimination. The method reads but never
assigns any attribute of `self`, so the client state is passed through. -/
def LastFMApi.request (st : ClientState) (store : Store) (tr : Transport)
    (params : List (String × Option PVal)) (use_cache : Bool) :
    Except ReqError Wire × ClientState × Store :=
  match st.session with
  | none => (.error .runtimeNotInitialized, st, store)
  | some sess =>
    let merged := assembleParams params st.api_key
    let fetched :=
      if !use_cache && sess.cached then plainGet store tr merged
      else if sess.cached then cachedGet store tr merged
      else plainGet store tr merged
    (handleErrorKey fetched.1, st, fetched.2)

/-- One public-surface interaction with the client, for stating invariants
over whole call sequences. -/
inductive Op where
  | start
  | close
  | req : List (String × Option PVal) → Bool → Op

/-- Machine state: the client's attributes, the fresh-session supply, and the
external cache store. -/
abbrev MachineState := ClientState × Nat × Store

/-- Step of the call-sequence machine. -/
def applyOp (tr : Transport) (m : MachineState) : Op → MachineState
  | .start =>
    let r := LastFMApi.start m.1 m.2.1
    (r.1, r.2, m.2.2)
  | .close => (LastFMApi.close m.1, m.2.1, m.2.2)
  | .req ps uc =>
    let r := LastFMApi.request m.1 m.2.2 tr ps uc
    (r.2.1, m.2.1, r.2.2)

/-- Run of a call sequence. -/
def applyOps (tr : Transport) (ops : List Op) (m : MachineState) : MachineState :=
  ops.foldl (applyOp tr) m

/-! ## Concrete wire fixtures used by witnesses and counterexamples -/

/-- An image fragment as the wire emits it. -/
def imgFrag : Wire := .obj [("#text", .str "http://img/1.png"), ("size", .str "small")]

/-- A complete artist search-match fragment with an empty `mbid` and
streamable `"0"`. -/
def artistFrag : Wire := .obj [
  ("name", .str "Cher"), ("listeners", .str "1148650"), ("mbid", .str ""),
  ("url", .str "https://www.last.fm/music/Cher"), ("streamable", .str "0"),
  ("image", .arr [imgFrag])]

/-- A complete album track fragment. -/
def trackFrag : Wire := .obj [
  ("streamable", .obj [("fulltrack", .str "0"), ("#text", .str "0")]),
  ("duration", .int 200), ("url", .str "https://t"), ("name", .str "Believe"),
  ("@attr", .obj [("rank", .int 1)]),
  ("artist", .obj [("name", .str "Cher"), ("url", .str "https://a"),
                   ("mbid", .str "bfcc6d75-a6a5-4bc6-8282-47aec8531818")])]

/-- A complete album search-match fragment with an empty `mbid`. -/
def albumFrag : Wire := .obj [
  ("name", .str "Believe"), ("artist", .str "Cher"), ("url", .str "https://b"),
  ("image", .arr [imgFrag]), ("streamable", .str "0"), ("mbid", .str "")]

/-- Field list of an album-detail fragment with empty `mbid`, a `tags`
section present, and no `wiki` or `userplaycount` keys. -/
def albumDetailFields : List (String × Wire) := [
  ("artist", .str "Cher"), ("mbid", .str ""), ("listeners", .str "389056"),
  ("playcount", .str "1151664"), ("tags", .obj [("tag", .arr [])]),
  ("image", .arr [imgFrag]), ("tracks", .obj [("track", .arr [trackFrag])])]

/-- The wire object over `albumDetailFields`. -/
def albumDetailFrag : Wire := .obj albumDetailFields

/-- Field list of the same album-detail fragment with `tags` absent. -/
def albumDetailNoTagsFields : List (String × Wire) := [
  ("artist", .str "Cher"), ("mbid", .str ""), ("listeners", .str "389056"),
  ("playcount", .str "1151664"),
  ("image", .arr [imgFrag]), ("tracks", .obj [("track", .arr [trackFrag])])]

/-- The wire object over `albumDetailNoTagsFields`. -/
def albumDetailNoTagsFrag : Wire := .obj albumDetailNoTagsFields

/-- Whether a wire value is a JSON list (Python `isinstance(v, list)`). -/
def Wire.isArr : Wire → Bool
  | .arr _ => true
  | _ => false

/-- A caller parameter map with a `None`-valued entry and a conflicting
`api_key` entry. -/
def paramsFrag : List (String × Option PVal) :=
  [("method", some (.str "artist.getinfo")), ("artist", some (.str "Cher")),
   ("mbid", none), ("autocorrect", some (.int 1)),
   ("api_key", some (.str "attacker-key"))]

/-- A decoded error payload: the spec's example `error: 6`. -/
def errorFrag : List (String × Wire) :=
  [("error", .int 6), ("message", .str "Artist not found")]

/-- A decoded success payload (no `error` key). -/
def okFrag : List (String × Wire) :=
  [("artist", .str "Cher")]

/-- A cached session handle that is open. -/
def sessFrag : SessionHandle := { id := 0, cached := true, closed := false }

/-- A client holding the injected cached session `sessFrag`. -/
def clientFrag : ClientState := LastFMApi.init "realkey" 3600 (some sessFrag)

/-- A transport answering every request with a fixed success payload. -/
def transportFrag : Transport := fun _ => Wire.obj okFrag

/-- A machine state over `clientFrag` with one pre-existing cache entry. -/
def machineFrag : MachineState :=
  (clientFrag, 5, [([("format", PVal.str "json")], Wire.obj okFrag)])

/-! ## Helper lemmas -/

/-- Bind on a successful `Except` runs the continuation. -/
theorem Except.ok_bind (a : α) (f : α → Except ε β) :
    (Except.ok a >>= f) = f a := rfl

/-- Bind on a failed `Except` propagates the failure. -/
theorem Except.error_bind (e : ε) (f : α → Except ε β) :
    ((Except.error e : Except ε α) >>= f) = Except.error e := rfl

/-! ## Claims -/

/-- C1: the spec demands that every record type normalize a wire `mbid` of
`""` to an absent field. `AlbumDetail` violates it: it is the one model class
without the `empty_mbid_to_none` validator, so validating an album-detail
fragment whose `mbid` is `""` yields a record whose `mbid` IS the empty
string; the sibling `Album` model normalizes the same wire value to `none`. -/
theorem albumDetail_keeps_empty_mbid :
    (AlbumDetail.validate albumDetailFrag).map (fun r => r.mbid)
      = Except.ok (some "")
  ∧ (Album.validate albumFrag).map (fun r => r.mbid) = Except.ok none := by
  exact ⟨rfl, rfl⟩

/-- C9: every wire boolean arriving as `"0"`, `"1"`, `0` or `1` normalizes to
exactly `false` for the falsy forms and `true` for the truthy forms, in each
record type carrying such a field (`Artist.streamable`,
`ArtistDetail.streamable`, `Album.streamable`,
`AlbumTrackStreamable.fulltrack`); the validator is also applied during
whole-record validation. -/
theorem wire_bool_normalization :
    (Artist.parse_streamable (.str "0") = .ok false
      ∧ Artist.parse_streamable (.str "1") = .ok true
      ∧ Artist.parse_streamable (.int 0) = .ok false
      ∧ Artist.parse_streamable (.int 1) = .ok true)
  ∧ (ArtistDetail.parse_streamable (.str "0") = .ok false
      ∧ ArtistDetail.parse_streamable (.str "1") = .ok true
      ∧ ArtistDetail.parse_streamable (.int 0) = .ok false
      ∧ ArtistDetail.parse_streamable (.int 1) = .ok true)
  ∧ (Album.parse_streamable (.str "0") = .ok false
      ∧ Album.parse_streamable (.str "1") = .ok true
      ∧ Album.parse_streamable (.int 0) = .ok false
      ∧ Album.parse_streamable (.int 1) = .ok true)
  ∧ (AlbumTrackStreamable.parse_fulltrack (.str "0") = .ok false
      ∧ AlbumTrackStreamable.parse_fulltrack (.str "1") = .ok true
      ∧ AlbumTrackStreamable.parse_fulltrack (.int 0) = .ok false
      ∧ AlbumTrackStreamable.parse_fulltrack (.int 1) = .ok true)
  ∧ (Artist.validate artistFrag).map (fun r => r.streamable) = .ok false := by
  refine ⟨⟨rfl, rfl, rfl, rfl⟩, ⟨rfl, rfl, rfl, rfl⟩,
    ⟨rfl, rfl, rfl, rfl⟩, ⟨rfl, rfl, rfl, rfl⟩, rfl⟩

/-- C2 counterexample: the claim quantifies over search-match lists (among
others), but `ArtistMatches` has no singleton normalizer: a wire fragment
whose `artist` field holds one lone artist object — an object that validates
on its own — fails validation instead of normalizing to a one-element list. -/
theorem lone_match_not_normalized :
    isOkE (Artist.validate artistFrag) = true
  ∧ isOkE (ArtistMatches.validate (.obj [("artist", artistFrag)])) = false := by
  exact ⟨rfl, rfl⟩

/-- C2 amended: only the album track list accepts the single-or-list
ambiguity. For every wire value `v` that is not a JSON list, validating an
`AlbumTracks` fragment whose `track` field holds `v` is exactly validating
`v` as one track and wrapping the result in a one-element list, its content
unchanged. -/
theorem lone_track_normalizes (v : Wire) (h : v.isArr = false) :
    AlbumTracks.validate (Wire.obj [("track", v)])
      = (AlbumTrack.validate v).map (fun t => { track := [t] }) := by
  have hn : AlbumTracks.normalize_track v = Wire.arr [v] := by
    cases v <;> first | rfl | simp [Wire.isArr] at h
  have h1 : AlbumTracks.validate (Wire.obj [("track", v)])
      = validateList AlbumTrack.validate (AlbumTracks.normalize_track v)
          >>= (fun track => Except.ok { track := track }) := rfl
  rw [h1, hn]
  cases hv : AlbumTrack.validate v with
  | error e =>
    simp [validateList, List.mapM, List.mapM.loop, hv, Except.map,
      Except.error_bind, Except.ok_bind]
  | ok t =>
    simp [validateList, List.mapM, List.mapM.loop, hv, Except.map,
      Except.error_bind, Except.ok_bind, pure, Except.pure]

/-- Witness for C2's amended theorem at a concrete lone track object. -/
theorem lone_track_normalizes_witness :
    Wire.isArr trackFrag = false
  ∧ AlbumTracks.validate (Wire.obj [("track", trackFrag)])
      = (AlbumTrack.validate trackFrag).map (fun t => { track := [t] }) :=
  ⟨rfl, lone_track_normalizes trackFrag rfl⟩

/-- Inversion of a successful `Except` bind. -/
theorem Except.bind_eq_ok {x : Except ε α} {f : α → Except ε β} {b : β}
    (h : x >>= f = Except.ok b) : ∃ a, x = Except.ok a ∧ f a = Except.ok b := by
  cases x with
  | error e => rw [Except.error_bind] at h; cases h
  | ok a => exact ⟨a, rfl, h⟩

/-- C3 counterexample: the claim says absence of any of the three optional
sections is never a validation error, but `tags` is declared `AlbumTags |
None` with no default, so an album-detail fragment that merely drops the
`tags` key is rejected, while the identical fragment with `tags` present
(and `wiki`, `userplaycount` still absent) validates. -/
theorem absent_tags_rejected :
    isOkE (AlbumDetail.validate albumDetailNoTagsFrag) = false
  ∧ isOkE (AlbumDetail.validate albumDetailFrag) = true := by
  exact ⟨rfl, rfl⟩

/-- C3 amended: validating an album-detail wire response in which `wiki` or
`userplaycount` is absent succeeds (with that section absent in the record)
whenever the rest validates; absence of the `tags` key, however, is always a
validation error, because `tags` is nullable but required. -/
theorem optional_sections_amended :
    (∀ fs r, lookupW fs "wiki" = none → lookupW fs "userplaycount" = none →
       AlbumDetail.validate (Wire.obj fs) = Except.ok r →
       r.wiki = none ∧ r.userplaycount = none)
  ∧ (∀ fs, lookupW fs "tags" = none →
       isOkE (AlbumDetail.validate (Wire.obj fs)) = false)
  ∧ isOkE (AlbumDetail.validate albumDetailFrag) = true := by
  refine ⟨?_, ?_, rfl⟩
  · intro fs r hw hu h
    simp only [AlbumDetail.validate, hw, hu, Except.ok_bind] at h
    repeat obtain ⟨_, -, h⟩ := Except.bind_eq_ok h
    cases h
    exact ⟨rfl, rfl⟩
  · intro fs htags
    cases hval : AlbumDetail.validate (Wire.obj fs) with
    | error e => rfl
    | ok r =>
      exfalso
      simp only [AlbumDetail.validate] at hval
      obtain ⟨_, -, hval⟩ := Except.bind_eq_ok hval
      obtain ⟨_, -, hval⟩ := Except.bind_eq_ok hval
      obtain ⟨_, -, hval⟩ := Except.bind_eq_ok hval
      obtain ⟨_, -, hval⟩ := Except.bind_eq_ok hval
      obtain ⟨_, -, hval⟩ := Except.bind_eq_ok hval
      obtain ⟨_, -, hval⟩ := Except.bind_eq_ok hval
      obtain ⟨_, -, hval⟩ := Except.bind_eq_ok hval
      obtain ⟨_, -, hval⟩ := Except.bind_eq_ok hval
      cases hu : lookupW fs "userplaycount" with
      | none =>
        simp only [hu, Except.ok_bind] at hval
        obtain ⟨vTags, hT, hval⟩ := Except.bind_eq_ok hval
        simp [reqField, htags] at hT
      | some v =>
        simp only [hu] at hval
        obtain ⟨_, -, hval⟩ := Except.bind_eq_ok hval
        obtain ⟨vTags, hT, hval⟩ := Except.bind_eq_ok hval
        simp [reqField, htags] at hT

/-- Witness for C3's amended theorem: the concrete fragment without `wiki`
and `userplaycount` validates with both sections absent, and the concrete
fragment without `tags` is rejected. -/
theorem optional_sections_amended_witness :
    (AlbumDetail.validate (Wire.obj albumDetailFields)).map
        (fun r => (r.wiki, r.userplaycount)) = Except.ok (none, none)
  ∧ isOkE (AlbumDetail.validate (Wire.obj albumDetailNoTagsFields)) = false := by
  refine ⟨?_, optional_sections_amended.2.1 albumDetailNoTagsFields rfl⟩
  obtain ⟨r0, hr0⟩ :
      ∃ r, AlbumDetail.validate (Wire.obj albumDetailFields) = Except.ok r :=
    ⟨_, rfl⟩
  have h1 := optional_sections_amended.1 albumDetailFields r0 rfl rfl hr0
  rw [hr0]
  simp [Except.map, h1.1, h1.2]

/-- Lookup in a cons dict: the head answers when its key matches. -/
theorem findVal_cons (p : String × α) (d : List (String × α)) (k : String) :
    findVal (p :: d) k = if p.1 = k then some p.2 else findVal d k := by
  by_cases hp : p.1 = k
  · unfold findVal
    rw [List.find?_cons_of_pos _ (by simpa using hp), if_pos hp]
    rfl
  · unfold findVal
    rw [List.find?_cons_of_neg _ (by simpa using hp), if_neg hp]

/-- A key absent from a dict never has a binding. -/
theorem findVal_eq_none {α : Type} {d : List (String × α)} {k : String}
    (h : k ∉ d.map Prod.fst) : findVal d k = none := by
  unfold findVal
  have hf : d.find? (fun p => p.1 = k) = none := by
    rw [List.find?_eq_none]
    intro x hx hxk
    simp only [decide_eq_true_eq] at hxk
    exact h (by rw [← hxk]; exact List.mem_map_of_mem Prod.fst hx)
  rw [hf]; rfl

/-- A key with no binding is absent from the dict. -/
theorem not_mem_of_findVal_eq_none {α : Type} {d : List (String × α)} {k : String}
    (h : findVal d k = none) : k ∉ d.map Prod.fst := by
  intro hk
  obtain ⟨p, hp, hpk⟩ := List.mem_map.1 hk
  unfold findVal at h
  rw [Option.map_eq_none'] at h
  exact (List.find?_eq_none.1 h p hp) (by simp [hpk])

/-- Replacing key `k` in place binds `k` to the new value. -/
theorem findVal_map_replace (d : List (String × PVal)) (k : String) (v : PVal)
    (h : d.any (fun p => p.1 = k) = true) :
    findVal (d.map (fun p => if p.1 = k then (k, v) else p)) k = some v := by
  induction d with
  | nil => cases h
  | cons p rest ih =>
    simp only [List.map_cons]
    by_cases hp : p.1 = k
    · rw [if_pos hp, findVal_cons]
      simp
    · have h' : rest.any (fun p => p.1 = k) = true := by
        simpa [List.any_cons, hp] using h
      rw [if_neg hp, findVal_cons, if_neg hp]
      exact ih h'

/-- Replacing key `k` in place leaves every other key's binding unchanged. -/
theorem findVal_map_replace_other (d : List (String × PVal)) (k : String)
    (v : PVal) (k' : String) (h : k' ≠ k) :
    findVal (d.map (fun p => if p.1 = k then (k, v) else p)) k' = findVal d k' := by
  have hkk' : ¬(k = k') := fun he => h he.symm
  induction d with
  | nil => rfl
  | cons p rest ih =>
    simp only [List.map_cons]
    by_cases hp : p.1 = k
    · have hpk' : ¬(p.1 = k') := by rw [hp]; exact hkk'
      rw [if_pos hp, findVal_cons, findVal_cons, if_neg hkk', if_neg hpk']
      exact ih
    · rw [if_neg hp, findVal_cons, findVal_cons]
      by_cases hpk' : p.1 = k'
      · rw [if_pos hpk', if_pos hpk']
      · rw [if_neg hpk', if_neg hpk']
        exact ih

/-- Appending a fresh key binds it. -/
theorem findVal_append_single (d : List (String × PVal)) (k : String) (v : PVal)
    (h : d.any (fun p => p.1 = k) = false) :
    findVal (d ++ [(k, v)]) k = some v := by
  have hd : d.find? (fun p => p.1 = k) = none := by
    rw [List.find?_eq_none]
    intro x hx hxk
    simp only [decide_eq_true_eq] at hxk
    have hx2 : d.any (fun p => p.1 = k) = true :=
      List.any_eq_true.2 ⟨x, hx, by simpa using hxk⟩
    rw [h] at hx2
    cases hx2
  unfold findVal
  rw [List.find?_append, hd]
  have hk : List.find? (fun p => p.1 = k) [(k, v)] = some (k, v) :=
    List.find?_cons_of_pos _ (by simp)
  rw [hk]
  rfl

/-- Binding one key leaves every other key's binding unchanged. -/
theorem findVal_dictInsert_other (d : List (String × PVal)) (k : String)
    (v : PVal) (k' : String) (h : k' ≠ k) :
    findVal (dictInsert d k v) k' = findVal d k' := by
  unfold dictInsert
  cases hany : d.any (fun p => p.1 = k) with
  | true =>
    simp only [hany, if_true]
    exact findVal_map_replace_other d k v k' h
  | false =>
    simp only [hany, Bool.false_eq_true, if_false]
    have h2 : List.find? (fun p => p.1 = k') [(k, v)] = none := by
      rw [List.find?_eq_none]
      intro x hx
      simp only [List.mem_singleton] at hx
      subst hx
      simp only [decide_eq_true_eq]
      exact fun he => h he.symm
    unfold findVal
    rw [List.find?_append, h2]
    simp

/-- Binding a key makes lookup of that key return the bound value. -/
theorem findVal_dictInsert_self (d : List (String × PVal)) (k : String)
    (v : PVal) : findVal (dictInsert d k v) k = some v := by
  unfold dictInsert
  cases hany : d.any (fun p => p.1 = k) with
  | true =>
    simp only [hany, if_true]
    exact findVal_map_replace d k v hany
  | false =>
    simp only [hany, Bool.false_eq_true, if_false]
    exact findVal_append_single d k v hany

/-- Keys of the filtered caller map are caller keys. -/
theorem keys_filteredParams_sub {params : List (String × Option PVal)}
    {k : String} (h : k ∈ (filteredParams params).map Prod.fst) :
    k ∈ params.map Prod.fst := by
  obtain ⟨q, hq, hqk⟩ := List.mem_map.1 h
  obtain ⟨p, hp, hpq⟩ := List.mem_filterMap.1 hq
  cases hv : p.2 with
  | none => rw [hv] at hpq; cases hpq
  | some v =>
    rw [hv] at hpq
    simp only [Option.map_some', Option.some_inj] at hpq
    rw [← hqk, ← hpq]
    exact List.mem_map_of_mem Prod.fst hp

/-- On a caller map with distinct keys, filtering drops exactly the
`None`-valued entries: lookup in the filtered map is the flattened lookup. -/
theorem findVal_filteredParams (params : List (String × Option PVal))
    (hnd : (params.map Prod.fst).Nodup) (k : String) :
    findVal (filteredParams params) k = (findVal params k).bind id := by
  induction params with
  | nil => rfl
  | cons p rest ih =>
    rw [List.map_cons, List.nodup_cons] at hnd
    obtain ⟨hp1, hrest⟩ := hnd
    by_cases hk : p.1 = k
    · cases hv : p.2 with
      | none =>
        have hnone : findVal (filteredParams rest) k = none :=
          findVal_eq_none (fun hmem =>
            hp1 (by rw [hk]; exact keys_filteredParams_sub hmem))
        rw [findVal_cons, if_pos hk, hv]
        simp only [filteredParams, List.filterMap_cons, hv]
        simpa [filteredParams] using hnone
      | some v =>
        rw [findVal_cons, if_pos hk, hv]
        simp only [filteredParams, List.filterMap_cons, hv, Option.map_some']
        rw [findVal_cons, if_pos hk]
        rfl
    · rw [findVal_cons, if_neg hk]
      cases hv : p.2 with
      | none =>
        simp only [filteredParams, List.filterMap_cons, hv]
        simpa [filteredParams] using ih hrest
      | some v =>
        simp only [filteredParams, List.filterMap_cons, hv, Option.map_some']
        rw [findVal_cons, if_neg hk]
        simpa [filteredParams] using ih hrest

/-- C4: on every caller parameter map (a Python dict, so keys are distinct),
the assembled outgoing set binds `api_key` and `format` to the
system-supplied values (even against conflicting caller entries), binds every
other key exactly as the caller did when the value was present, and contains
no key whose caller value was `None`. -/
theorem request_param_assembly (params : List (String × Option PVal))
    (apiKey : String) (hnd : (params.map Prod.fst).Nodup) :
    findVal (assembleParams params apiKey) "api_key" = some (.str apiKey)
  ∧ findVal (assembleParams params apiKey) "format" = some (.str "json")
  ∧ (∀ k, k ≠ "api_key" → k ≠ "format" →
      findVal (assembleParams params apiKey) k = (findVal params k).bind id)
  ∧ (∀ k, k ≠ "api_key" → k ≠ "format" → findVal params k = some none →
      k ∉ (assembleParams params apiKey).map Prod.fst) := by
  have h3 : ∀ k, k ≠ "api_key" → k ≠ "format" →
      findVal (assembleParams params apiKey) k = (findVal params k).bind id := by
    intro k hk1 hk2
    rw [assembleParams, findVal_dictInsert_other _ _ _ _ hk2,
        findVal_dictInsert_other _ _ _ _ hk1]
    exact findVal_filteredParams params hnd k
  refine ⟨?_, ?_, h3, ?_⟩
  · rw [assembleParams, findVal_dictInsert_other _ _ _ _ (by decide)]
    exact findVal_dictInsert_self _ _ _
  · rw [assembleParams]
    exact findVal_dictInsert_self _ _ _
  · intro k hk1 hk2 hnone
    apply not_mem_of_findVal_eq_none
    rw [h3 k hk1 hk2, hnone]
    rfl

/-- Witness for C4 on a concrete caller map holding a `None`-valued `mbid`
and a conflicting `api_key`. -/
theorem request_param_assembly_witness :
    findVal (assembleParams paramsFrag "realkey") "api_key"
      = some (.str "realkey")
  ∧ findVal (assembleParams paramsFrag "realkey") "format" = some (.str "json")
  ∧ findVal (assembleParams paramsFrag "realkey") "mbid" = none
  ∧ "mbid" ∉ (assembleParams paramsFrag "realkey").map Prod.fst := by
  have h := request_param_assembly paramsFrag "realkey" (by decide)
  refine ⟨h.1, h.2.1, ?_, h.2.2.2 "mbid" (by decide) (by decide) rfl⟩
  rw [h.2.2.1 "mbid" (by decide) (by decide)]
  rfl

/-- C5: a decoded response object carrying an `error` key with a numeric code
and a message is turned into the typed `LastFMException` holding exactly that
code and message — the pipeline result is the raised error, so the object is
neither handed to schema validation nor returned; a decoded object without an
`error` key is returned verbatim. -/
theorem error_key_discrimination :
    (∀ fs c m, lookupW fs "error" = some (Wire.int c) →
       lookupW fs "message" = some (Wire.str m) →
       handleErrorKey (Wire.obj fs)
         = Except.error (.lastFM { error := c, message := m }))
  ∧ (∀ fs, lookupW fs "error" = none →
       handleErrorKey (Wire.obj fs) = Except.ok (Wire.obj fs)) := by
  constructor
  · intro fs c m herr hmsg
    simp only [handleErrorKey, herr]
    simp only [LastFMErrorResponse.model_validate, reqField, herr, hmsg,
      Except.ok_bind, laxInt, validateStr]
  · intro fs herr
    simp only [handleErrorKey, herr]

/-- Witness for C5 at the spec's example payload `error: 6, message: "Artist
not found"` and at a payload without an `error` key. -/
theorem error_key_discrimination_witness :
    handleErrorKey (Wire.obj errorFrag)
      = Except.error (.lastFM { error := 6, message := "Artist not found" })
  ∧ handleErrorKey (Wire.obj okFrag) = Except.ok (Wire.obj okFrag) :=
  ⟨error_key_discrimination.1 errorFrag 6 "Artist not found" rfl rfl,
   error_key_discrimination.2 okFrag rfl⟩

/-- C6: a request issued with `use_cache = false` on a cached session leaves
the cache store untouched (nothing written, nothing purged) and the client's
configuration unchanged, is answered by a live transport fetch of the merged
parameters, and any later `use_cache = true` request behaves exactly as if
the bypassed call had never happened. -/
theorem cache_bypass_frame (st : ClientState) (store : Store) (tr : Transport)
    (ps : List (String × Option PVal)) (sess : SessionHandle)
    (hs : st.session = some sess) (hc : sess.cached = true) :
    (LastFMApi.request st store tr ps false).2.2 = store
  ∧ (LastFMApi.request st store tr ps false).2.1 = st
  ∧ (LastFMApi.request st store tr ps false).1
      = handleErrorKey (tr (assembleParams ps st.api_key))
  ∧ (∀ ps' : List (String × Option PVal),
      LastFMApi.request st ((LastFMApi.request st store tr ps false).2.2) tr ps' true
        = LastFMApi.request st store tr ps' true) := by
  have hreq : LastFMApi.request st store tr ps false
      = (handleErrorKey (tr (assembleParams ps st.api_key)), st, store) := by
    simp only [LastFMApi.request, hs, hc, Bool.not_false, Bool.true_and,
      plainGet, if_true]
  rw [hreq]
  exact ⟨rfl, rfl, rfl, fun ps' => rfl⟩

/-- Witness for C6 at a concrete client whose injected session is cached and
a store holding one entry. -/
theorem cache_bypass_frame_witness :
    (LastFMApi.request clientFrag machineFrag.2.2 transportFrag paramsFrag false).2.2
      = machineFrag.2.2
  ∧ (LastFMApi.request clientFrag machineFrag.2.2 transportFrag paramsFrag false).2.1
      = clientFrag
  ∧ (LastFMApi.request clientFrag machineFrag.2.2 transportFrag paramsFrag false).1
      = handleErrorKey (transportFrag (assembleParams paramsFrag clientFrag.api_key)) := by
  have h := cache_bypass_frame clientFrag machineFrag.2.2 transportFrag
    paramsFrag sessFrag rfl rfl
  exact ⟨h.1, h.2.1, h.2.2.1⟩

/-- C7: `close()` on a client constructed with an externally supplied session
changes nothing — the session handle is untouched, so it stays open; on a
client whose session was self-created by `start()`, `close()` releases
exactly that session (its handle is marked closed). -/
theorem close_session_ownership :
    (∀ ak ttl s, LastFMApi.close (LastFMApi.init ak ttl (some s))
        = LastFMApi.init ak ttl (some s))
  ∧ (∀ ak ttl n,
      (LastFMApi.close (LastFMApi.start (LastFMApi.init ak ttl none) n).1).session
        = some { id := n, cached := true, closed := true }) := by
  constructor
  · intro ak ttl s
    simp [LastFMApi.close, LastFMApi.init]
  · intro ak ttl n
    simp [LastFMApi.close, LastFMApi.start, LastFMApi.init]

/-- C8: `start()` is idempotent. On any client already holding a session it
changes nothing and builds no new session (the supply is untouched); a client
constructed without a session gets exactly one fresh cached session on the
first `start()`, and a second `start()` is the identity; an injected session
is never replaced. -/
theorem start_idempotent :
    (∀ st n s, st.session = some s → LastFMApi.start st n = (st, n))
  ∧ (∀ ak ttl n,
      (LastFMApi.start (LastFMApi.init ak ttl none) n).1.session
          = some { id := n, cached := true, closed := false }
      ∧ (LastFMApi.start (LastFMApi.init ak ttl none) n).2 = n + 1
      ∧ LastFMApi.start (LastFMApi.start (LastFMApi.init ak ttl none) n).1
            (LastFMApi.start (LastFMApi.init ak ttl none) n).2
          = LastFMApi.start (LastFMApi.init ak ttl none) n)
  ∧ (∀ ak ttl s n, LastFMApi.start (LastFMApi.init ak ttl (some s)) n
      = (LastFMApi.init ak ttl (some s), n)) := by
  refine ⟨?_, ?_, ?_⟩
  · intro st n s hs
    simp [LastFMApi.start, hs]
  · intro ak ttl n
    refine ⟨rfl, rfl, ?_⟩
    simp [LastFMApi.start, LastFMApi.init]
  · intro ak ttl s n
    simp [LastFMApi.start, LastFMApi.init]

/-- Witness for C8 at a concrete client already holding a session. -/
theorem start_idempotent_witness :
    LastFMApi.start clientFrag 5 = (clientFrag, 5) :=
  start_idempotent.1 clientFrag 5 sessFrag rfl

/-- Error discrimination never produces the not-initialized failure. -/
theorem handleErrorKey_ne_notInitialized (d : Wire) :
    handleErrorKey d ≠ Except.error ReqError.runtimeNotInitialized := by
  cases d with
  | obj fs =>
    simp only [handleErrorKey]
    cases h : lookupW fs "error" with
    | none => simp
    | some v =>
      cases hm : LastFMErrorResponse.model_validate fs with
      | ok err => simp [hm]
      | error s => simp [hm]
  | str s => simp [handleErrorKey]
  | int n => simp [handleErrorKey]
  | arr xs => simp [handleErrorKey]
  | null => simp [handleErrorKey]

/-- A request never assigns the client's attributes. -/
theorem request_client_state (st : ClientState) (store : Store) (tr : Transport)
    (ps : List (String × Option PVal)) (uc : Bool) :
    (LastFMApi.request st store tr ps uc).2.1 = st := by
  unfold LastFMApi.request
  cases hss : st.session <;> simp

/-- Closing never clears the `_session` attribute. -/
theorem close_preserves_session_isSome (st : ClientState) :
    (LastFMApi.close st).session.isSome = st.session.isSome := by
  unfold LastFMApi.close
  cases hss : st.session with
  | none => simp [hss]
  | some s => by_cases hc : st.usingCustomSession <;> simp [hc, hss]

/-- A request fails with the not-initialized error exactly when the client
holds no session. -/
theorem request_not_initialized_iff (st : ClientState) (store : Store)
    (tr : Transport) (ps : List (String × Option PVal)) (uc : Bool) :
    ((LastFMApi.request st store tr ps uc).1
        = Except.error ReqError.runtimeNotInitialized)
      ↔ st.session = none := by
  cases hss : st.session with
  | none => simp [LastFMApi.request, hss]
  | some s =>
    simp only [LastFMApi.request, hss]
    constructor
    · intro h
      exact absurd h (handleErrorKey_ne_notInitialized _)
    · intro h
      cases h

/-- One machine step keeps the session reference non-absent. -/
theorem applyOp_session_isSome (tr : Transport) (m : MachineState) (op : Op)
    (h : m.1.session.isSome = true) :
    ((applyOp tr m op).1).session.isSome = true := by
  cases op with
  | start =>
    simp only [applyOp]
    cases hss : m.1.session with
    | some s => simp [LastFMApi.start, hss]
    | none => rw [hss] at h; cases h
  | close =>
    simp only [applyOp]
    rw [close_preserves_session_isSome]
    exact h
  | req ps uc =>
    simp only [applyOp]
    rw [request_client_state]
    exact h

/-- A whole run of machine steps keeps the session reference non-absent. -/
theorem applyOps_session_isSome (tr : Transport) (ops : List Op)
    (m : MachineState) (h : m.1.session.isSome = true) :
    ((applyOps tr ops m).1).session.isSome = true := by
  induction ops generalizing m with
  | nil => exact h
  | cons op rest ih => exact ih _ (applyOp_session_isSome tr m op h)

/-- C10: once the client's session reference is non-absent it stays
non-absent under every sequence of start/close/request operations; `close()`
in particular never clears it, so after `close()` a request does not raise
the not-initialized error and `start()` builds no fresh session; a request
raises the not-initialized error exactly when the client holds no session. -/
theorem session_reference_persistent :
    (∀ tr ops (m : MachineState), m.1.session.isSome = true →
       ((applyOps tr ops m).1).session.isSome = true)
  ∧ (∀ st, (LastFMApi.close st).session.isSome = st.session.isSome)
  ∧ (∀ st store tr ps uc, st.session.isSome = true →
       (LastFMApi.request (LastFMApi.close st) store tr ps uc).1
         ≠ Except.error ReqError.runtimeNotInitialized)
  ∧ (∀ st n, st.session.isSome = true →
       LastFMApi.start (LastFMApi.close st) n = (LastFMApi.close st, n))
  ∧ (∀ st store tr ps uc,
       ((LastFMApi.request st store tr ps uc).1
           = Except.error ReqError.runtimeNotInitialized)
         ↔ st.session = none) := by
  refine ⟨applyOps_session_isSome, close_preserves_session_isSome, ?_, ?_, ?_⟩
  · intro st store tr ps uc h hcontra
    have hnone := (request_not_initialized_iff _ _ _ _ _).1 hcontra
    have h2 : (LastFMApi.close st).session.isSome = true := by
      rw [close_preserves_session_isSome]; exact h
    rw [hnone] at h2
    cases h2
  · intro st n h
    have h2 : (LastFMApi.close st).session.isSome = true := by
      rw [close_preserves_session_isSome]; exact h
    obtain ⟨s, hs⟩ := Option.isSome_iff_exists.1 h2
    simp [LastFMApi.start, hs]
  · intro st store tr ps uc
    exact request_not_initialized_iff st store tr ps uc

/-- Witness for C10 on a concrete machine run: close, then a request and a
start — no not-initialized error, no fresh session. -/
theorem session_reference_persistent_witness :
    ((applyOps transportFrag [Op.close, Op.req [] true] machineFrag).1).session.isSome
      = true
  ∧ (LastFMApi.request (LastFMApi.close clientFrag) machineFrag.2.2
        transportFrag [] true).1 ≠ Except.error ReqError.runtimeNotInitialized
  ∧ LastFMApi.start (LastFMApi.close clientFrag) 5 = (LastFMApi.close clientFrag, 5) :=
  ⟨session_reference_persistent.1 transportFrag [Op.close, Op.req [] true]
      machineFrag rfl,
   session_reference_persistent.2.2.1 clientFrag machineFrag.2.2 transportFrag
      [] true rfl,
   session_reference_persistent.2.2.2.1 clientFrag 5 rfl⟩
